import Mathlib

/-!
Shallow embedding of the SanareApp user-account backend (role hierarchy,
user directory, credential authentication and OAuth account linking),
with theorems checking the specification's claims against it.

Sources embedded:
- app/users/models.py      (UserRole, OAuthProvider, User, UserOAuthAccount)
- app/core/permissions.py  (Permission, RolePermissions)
- app/users/service.py     (UserService)
- app/oauth/service.py     (OAuthService)

The database session is modelled as an explicit in-memory state (`DB`):
a list of user rows and a list of OAuth-account rows plus fresh-id
counters.  SQLAlchemy queries become list traversals; `commit` becomes
returning the new state; raising `HTTPException` becomes returning an
error value, in which case the state is returned unchanged (nothing was
committed).  Nondeterministic username generation (`secrets.token_hex`)
is modelled by an environment `env : Nat → String` giving the result of
the n-th generator call.
-/

namespace SanareApp

/-- UserRole enum from app/users/models.py. -/
inductive UserRole where
  | USER
  | MANAGER
  | ADMIN
deriving DecidableEq

/-- The string value of a role (Python str-enum value). -/
def UserRole.value : UserRole → String
  | .USER => "USER"
  | .MANAGER => "MANAGER"
  | .ADMIN => "ADMIN"

/-- Role hierarchy level from UserRole.level in app/users/models.py. -/
def UserRole.level : UserRole → Nat
  | .USER => 1
  | .MANAGER => 2
  | .ADMIN => 3

/-- OAuthProvider enum from app/users/models.py. -/
inductive OAuthProvider where
  | GOOGLE
  | GITHUB
  | FACEBOOK
deriving DecidableEq

/-- The string value of a provider (Python str-enum value). -/
def OAuthProvider.value : OAuthProvider → String
  | .GOOGLE => "google"
  | .GITHUB => "github"
  | .FACEBOOK => "facebook"

/-- Permission enum from app/core/permissions.py. -/
inductive Permission where
  | CREATE_USER
  | READ_USER
  | UPDATE_USER
  | DELETE_USER
  | READ_OWN_PROFILE
  | UPDATE_OWN_PROFILE
  | READ_MEDICAL_RECORDS
  | CREATE_MEDICAL_RECORDS
  | UPDATE_MEDICAL_RECORDS
  | MANAGE_SYSTEM
  | VIEW_ANALYTICS
deriving DecidableEq

namespace RolePermissions

/-- RolePermissions.PERMISSIONS_MAP from app/core/permissions.py,
with each role's list exactly as enumerated in the source. -/
def PERMISSIONS_MAP : UserRole → List Permission
  | .USER =>
    [ .READ_OWN_PROFILE,
      .UPDATE_OWN_PROFILE ]
  | .MANAGER =>
    [ .READ_OWN_PROFILE,
      .UPDATE_OWN_PROFILE,
      .READ_USER,
      .CREATE_USER,
      .READ_MEDICAL_RECORDS,
      .CREATE_MEDICAL_RECORDS,
      .UPDATE_MEDICAL_RECORDS,
      .VIEW_ANALYTICS ]
  | .ADMIN =>
    [ .READ_OWN_PROFILE,
      .UPDATE_OWN_PROFILE,
      .CREATE_USER,
      .READ_USER,
      .UPDATE_USER,
      .DELETE_USER,
      .READ_MEDICAL_RECORDS,
      .CREATE_MEDICAL_RECORDS,
      .UPDATE_MEDICAL_RECORDS,
      .MANAGE_SYSTEM,
      .VIEW_ANALYTICS ]

/-- RolePermissions.get_permissions: the map lookup (total on the closed
role set, so the Python default [] branch is unreachable). -/
def get_permissions (role : UserRole) : List Permission :=
  PERMISSIONS_MAP role

/-- RolePermissions.has_permission: membership in the role's list. -/
def has_permission (role : UserRole) (permission : Permission) : Bool :=
  decide (permission ∈ get_permissions role)

/-- RolePermissions.can_manage_user from app/core/permissions.py:
Admin manages everyone, Manager manages only USER, User manages no one. -/
def can_manage_user (manager_role : UserRole) (target_role : UserRole) : Bool :=
  if manager_role = UserRole.ADMIN then
    true
  else if manager_role = UserRole.MANAGER then
    decide (target_role = UserRole.USER)
  else
    false

end RolePermissions

/-- User row from app/users/models.py (timestamps are server-side and
omitted; every application-visible column is kept). -/
structure User where
  id : Nat
  email : String
  username : String
  full_name : Option String
  avatar_url : Option String
  hashed_password : Option String
  is_active : Bool
  is_superuser : Bool
  role : UserRole
  is_oauth_user : Bool
  email_verified : Bool
deriving DecidableEq

/-- User.has_password property from app/users/models.py. -/
def User.has_password (u : User) : Bool :=
  u.hashed_password.isSome

/-- TokenData: the JSON body returned by the provider token endpoint as
used by the source (access_token, refresh_token, expires_in). -/
structure TokenData where
  access_token : Option String
  refresh_token : Option String
  expires_in : Option Nat
deriving DecidableEq

/-- UserOAuthAccount row from app/users/models.py.  provider_data holds
the json.dumps of the token payload, modelled as the payload itself. -/
structure UserOAuthAccount where
  id : Nat
  user_id : Nat
  provider : OAuthProvider
  provider_user_id : String
  provider_user_email : String
  provider_user_name : Option String
  provider_avatar_url : Option String
  access_token : Option String
  refresh_token : Option String
  token_expires_at : Option Nat
  provider_data : Option TokenData
deriving DecidableEq

/-- OAuthUserInfo schema from app/users/schemas.py (normalized userinfo
response). -/
structure OAuthUserInfo where
  id : String
  email : String
  name : Option String
  picture : Option String
  email_verified : Bool
deriving DecidableEq

/-- The persistent state: users table, user_oauth_accounts table and the
autoincrement counters for their primary keys. -/
structure DB where
  users : List User
  oauth_accounts : List UserOAuthAccount
  next_user_id : Nat
  next_oauth_id : Nat
deriving DecidableEq

/-- scalar_one_or_none on a SQLAlchemy result: none on empty, the row
when unique, an error when the query matched several rows. -/
def scalarOneOrNone {α : Type} : List α → Except Unit (Option α)
  | [] => .ok none
  | [a] => .ok (some a)
  | _ => .error ()

namespace UserService

/-- UserService.get_user_by_id from app/users/service.py: point lookup
on the primary key. -/
def get_user_by_id (db : DB) (user_id : Nat) : Option User :=
  db.users.find? (fun u => u.id == user_id)

/-- UserService.get_user_by_email: point lookup on the unique email. -/
def get_user_by_email (db : DB) (email : String) : Option User :=
  db.users.find? (fun u => u.email == email)

/-- UserService.get_user_by_username: point lookup on the unique
username. -/
def get_user_by_username (db : DB) (username : String) : Option User :=
  db.users.find? (fun u => u.username == username)

/-- Errors raised by UserService.update_user (HTTPException 400 with the
corresponding detail strings). -/
inductive UpdateError where
  | emailConflict
  | usernameConflict
deriving DecidableEq

/-- UserUpdate schema from app/users/schemas.py: a partial payload. -/
structure UserUpdate where
  email : Option String
  username : Option String
  full_name : Option String
  is_active : Option Bool
  role : Option UserRole
deriving DecidableEq

/-- The field assignments performed by UserService.update_user on the
fetched user object: each of the five optional payload fields is copied
when provided, every other column is left as is. -/
def apply_user_update (u : User) (data : UserUpdate) : User :=
  { u with
    email := data.email.getD u.email,
    username := data.username.getD u.username,
    full_name := match data.full_name with
      | some f => some f
      | none => u.full_name,
    is_active := data.is_active.getD u.is_active,
    role := data.role.getD u.role }

/-- UserService.update_user from app/users/service.py: returns none on a
missing id, checks email then username uniqueness against other rows
(raising on a conflict, in which case nothing is committed), then writes
the updated row. -/
def update_user (db : DB) (user_id : Nat) (data : UserUpdate) :
    Except UpdateError (Option User) × DB :=
  match get_user_by_id db user_id with
  | none => (.ok none, db)
  | some user =>
    let emailTaken : Bool :=
      match data.email with
      | some e =>
        match get_user_by_email db e with
        | some other => other.id != user_id
        | none => false
      | none => false
    if emailTaken then (.error .emailConflict, db)
    else
      let usernameTakenByOther : Bool :=
        match data.username with
        | some n =>
          match get_user_by_username db n with
          | some other => other.id != user_id
          | none => false
        | none => false
      if usernameTakenByOther then (.error .usernameConflict, db)
      else
        let updated := apply_user_update user data
        (.ok (some updated),
         { db with users := db.users.map (fun x => if x.id == user_id then updated else x) })

end UserService

/-- Modelled from the spec: app/core/security.py is not under src/.
Section 6 gives the password hashing collaborator as
hash(plain) -> opaque with verify(plain, hash(plain)) = true and
verify(wrong, hash(plain)) = false; the hash is modelled as an injective
tagging of the plaintext, which satisfies exactly that contract. -/
def get_password_hash (plain : String) : String :=
  "bcrypt-sha256$" ++ plain

/-- Modelled from the spec: app/core/security.py is not under src/.
verify(plain, opaque) -> bool from the spec's hashing collaborator,
totalized over the nullable hashed_password column (an absent hash
matches no password, which is what keeps OAuth-only accounts without a
password from authenticating by password). -/
def verify_password (plain : String) (hashed : Option String) : Bool :=
  match hashed with
  | some h => get_password_hash plain == h
  | none => false

namespace UserService

/-- UserService.authenticate_user from app/users/service.py: lookup by
email, none on a miss, none on a password mismatch, the user itself on a
match. -/
def authenticate_user (db : DB) (email : String) (password : String) : Option User :=
  match get_user_by_email db email with
  | none => none
  | some user =>
    if !(verify_password password user.hashed_password) then none
    else some user

/-- UserService.validate_role_change from app/users/service.py: target
lookup, then the self-change guard, then the two can_manage_user checks,
returning the first failing reason string. -/
def validate_role_change (db : DB) (changer : User) (target_user_id : Nat)
    (new_role : UserRole) : Bool × String :=
  match get_user_by_id db target_user_id with
  | none => (false, "Target user not found")
  | some target =>
    if changer.id == target_user_id then
      (false, "You cannot change your own role")
    else if !(RolePermissions.can_manage_user changer.role target.role) then
      (false, "You cannot manage users with role: " ++ target.role.value)
    else if !(RolePermissions.can_manage_user changer.role new_role) then
      (false, "You cannot assign role: " ++ new_role.value)
    else
      (true, "")

end UserService

namespace OAuthService

/-- The HTTPException outcomes of the OAuth service operations embedded
here, one constructor per distinct raise site. -/
inductive OAuthError where
  | userNotFound
  | lastAuthMethod
  | linkNotFound
  | multipleResults
  | usernameExhausted
  | accountUserMissing
deriving DecidableEq

/-- OAuthService.unlink_oauth_account from app/oauth/service.py: user
lookup, then (for a passwordless user) the count of all of the user's
OAuth accounts gates with lastAuthMethod when it is at most one, and
only after that gate is the (user, provider) link looked up and deleted.
On an error the state is unchanged (the raise happens before any
delete/commit). -/
def unlink_oauth_account (db : DB) (user_id : Nat) (provider : OAuthProvider) :
    Except OAuthError Bool × DB :=
  match UserService.get_user_by_id db user_id with
  | none => (.error .userNotFound, db)
  | some user =>
    if !user.has_password &&
        (db.oauth_accounts.filter (fun a => a.user_id == user_id)).length ≤ 1 then
      (.error .lastAuthMethod, db)
    else
      match scalarOneOrNone
          (db.oauth_accounts.filter
            (fun a => a.user_id == user_id && a.provider == provider)) with
      | .error _ => (.error .multipleResults, db)
      | .ok none => (.error .linkNotFound, db)
      | .ok (some oauth_account) =>
        (.ok true,
         { db with
           oauth_accounts :=
             db.oauth_accounts.filter (fun a => a.id != oauth_account.id) })

/-- OAuthService._get_oauth_account: scalar_one_or_none over the rows
matching (provider, provider_user_id). -/
def get_oauth_account (db : DB) (provider : OAuthProvider) (provider_user_id : String) :
    Except Unit (Option UserOAuthAccount) :=
  scalarOneOrNone
    (db.oauth_accounts.filter
      (fun a => a.provider == provider && a.provider_user_id == provider_user_id))

/-- OAuthService._create_oauth_account: builds the new row from the
userinfo payload and token payload (token_expires_at = now plus
expires_in defaulting to 3600), appends it and commits. -/
def create_oauth_account (db : DB) (now : Nat) (user_id : Nat)
    (provider : OAuthProvider) (info : OAuthUserInfo) (token : TokenData) :
    UserOAuthAccount × DB :=
  let oauth_account : UserOAuthAccount :=
    { id := db.next_oauth_id,
      user_id := user_id,
      provider := provider,
      provider_user_id := info.id,
      provider_user_email := info.email,
      provider_user_name := info.name,
      provider_avatar_url := info.picture,
      access_token := token.access_token,
      refresh_token := token.refresh_token,
      token_expires_at := some (now + token.expires_in.getD 3600),
      provider_data := some token }
  (oauth_account,
   { db with
     oauth_accounts := db.oauth_accounts ++ [oauth_account],
     next_oauth_id := db.next_oauth_id + 1 })

/-- OAuthService._update_oauth_account: overwrites the cached profile
fields and token material of an existing row in place. -/
def update_oauth_account (oauth_account : UserOAuthAccount) (now : Nat)
    (info : OAuthUserInfo) (token : TokenData) : UserOAuthAccount :=
  { oauth_account with
    provider_user_email := info.email,
    provider_user_name := info.name,
    provider_avatar_url := info.picture,
    access_token := token.access_token,
    refresh_token := token.refresh_token,
    token_expires_at := some (now + token.expires_in.getD 3600),
    provider_data := some token }

/-- Whether a generated username collides with an existing user: the
truthiness of get_user_by_username in the retry loop's condition. -/
def usernameTaken (db : DB) (username : String) : Bool :=
  (UserService.get_user_by_username db username).isSome

/-- The retry loop of OAuthService._create_user_from_oauth:
`while get_user_by_username(username) and attempts < 10`, where each
body iteration draws a fresh candidate from the generator and increments
the attempts counter.  `calls` counts generator invocations so far (the
n-th invocation returns `env n`); `fuel` is the standard structural
bound for the while loop and is kept equal to 10 - attempts by every
caller, so the loop exits exactly when the source's condition fails. -/
def username_loop (db : DB) (env : Nat → String) :
    Nat → String → Nat → Nat → String × Nat × Nat
  | 0, username, attempts, calls => (username, attempts, calls)
  | fuel + 1, username, attempts, calls =>
    if usernameTaken db username then
      username_loop db env fuel (env calls) (attempts + 1) (calls + 1)
    else
      (username, attempts, calls)

/-- OAuthService._create_user_from_oauth from app/oauth/service.py: an
initial candidate username (generator call 0), the bounded retry loop,
the `attempts >= 10` exhaustion raise, else the new USER-role row with
no password, appended and committed.  The third component of the result
is the total number of generator calls made. -/
def create_user_from_oauth (env : Nat → String) (db : DB) (info : OAuthUserInfo) :
    Except OAuthError User × DB × Nat :=
  let r := username_loop db env 10 (env 0) 0 1
  if r.2.1 ≥ 10 then
    (.error .usernameExhausted, db, r.2.2)
  else
    let user : User :=
      { id := db.next_user_id,
        email := info.email,
        username := r.1,
        full_name := info.name,
        avatar_url := info.picture,
        hashed_password := none,
        is_active := true,
        is_superuser := false,
        role := UserRole.USER,
        is_oauth_user := true,
        email_verified := info.email_verified }
    (.ok user,
     { db with
       users := db.users ++ [user],
       next_user_id := db.next_user_id + 1 },
     r.2.2)

/-- The commit of _update_oauth_account into the session state: the row
with the account's id is replaced by its updated version. -/
def update_existing_link (db : DB) (now : Nat) (oauth_account : UserOAuthAccount)
    (info : OAuthUserInfo) (token : TokenData) : DB :=
  { db with
    oauth_accounts :=
      db.oauth_accounts.map
        (fun a =>
          if a.id == oauth_account.id then update_oauth_account oauth_account now info token
          else a) }

/-- The opportunistic backfill in handle_oauth_callback: fill a missing
avatar from the provider picture and raise email_verified when the
provider reports it verified. -/
def backfill_user (user : User) (info : OAuthUserInfo) : User :=
  { user with
    avatar_url :=
      if user.avatar_url.isNone && info.picture.isSome then info.picture
      else user.avatar_url,
    email_verified :=
      if !user.email_verified && info.email_verified then info.email_verified
      else user.email_verified }

/-- Branch (b) of the callback reconciliation: create the OAuth account
bound to the matched user, backfill the user, commit both. -/
def link_to_existing_user (db : DB) (now : Nat) (user : User)
    (provider : OAuthProvider) (info : OAuthUserInfo) (token : TokenData) : User × DB :=
  let created := create_oauth_account db now user.id provider info token
  let backfilled := backfill_user user info
  (backfilled,
   { created.2 with
     users := created.2.users.map (fun x => if x.id == user.id then backfilled else x) })

/-- The reconciliation and persistence steps of
OAuthService.handle_oauth_callback (lines 322-364): the state
verification, code exchange and userinfo fetch that precede them are
pure I/O against the provider and enter here as the already-fetched
`info` and `token` payloads.  Branches: (a) an account for (provider,
subject) exists: update it in place and load its owner; (b) a local
user exists with the returned email: create the link and backfill
missing avatar/verified-email on the user; (c) otherwise create a new
user then the link.  Returns the resolved user and the new state. -/
def handle_oauth_callback (env : Nat → String) (now : Nat) (db : DB)
    (provider : OAuthProvider) (info : OAuthUserInfo) (token : TokenData) :
    Except OAuthError (User × DB) :=
  match get_oauth_account db provider info.id with
  | .error _ => .error .multipleResults
  | .ok (some oauth_account) =>
    let db1 := update_existing_link db now oauth_account info token
    match UserService.get_user_by_id db1 oauth_account.user_id with
    | none => .error .accountUserMissing
    | some user => .ok (user, db1)
  | .ok none =>
    match UserService.get_user_by_email db info.email with
    | some user => .ok (link_to_existing_user db now user provider info token)
    | none =>
      match create_user_from_oauth env db info with
      | (.error e, _, _) => .error e
      | (.ok user, db1, _) =>
        .ok (user, (create_oauth_account db1 now user.id provider info token).2)

/-- The state payload built by generate_authorization_url
(provider value, redirect_uri; the issue timestamp lives on the signed
token). -/
structure StatePayload where
  provider : String
  redirect_uri : String
deriving DecidableEq

/-- A signed state token as seen by the verifying serializer: its
payload, its issue time, and whether its signature verifies.  The
serializer itself (itsdangerous URLSafeTimedSerializer) is an external
collaborator; spec section 6 gives its contract as
verify(token, maxAgeSeconds) -> payload | invalid/expired. -/
structure StateToken where
  payload : StatePayload
  issued_at : Nat
  sig_valid : Bool
deriving DecidableEq

/-- serializer.loads with max_age: the payload when the signature is
valid and the elapsed age does not exceed max_age, none otherwise
(BadSignature and SignatureExpired are caught by the same handler in
the source, so they need not be distinguished here). -/
def serializer_loads (tok : StateToken) (now : Nat) (max_age : Nat) :
    Option StatePayload :=
  if tok.sig_valid && decide (now - tok.issued_at ≤ max_age) then some tok.payload
  else none

/-- The failures of OAuthService._verify_state: the caught
BadSignature/SignatureExpired case and the embedded-provider mismatch
(both surfaced as HTTP 400 invalid-state responses). -/
inductive StateError where
  | invalidOrExpired
  | providerMismatch
deriving DecidableEq

/-- OAuthService._verify_state from app/oauth/service.py: loads the
state with max_age = 600 seconds, then requires the embedded provider
value to equal the callback provider. -/
def verify_state (tok : StateToken) (now : Nat) (expected_provider : OAuthProvider) :
    Except StateError StatePayload :=
  match serializer_loads tok now 600 with
  | none => .error .invalidOrExpired
  | some state_data =>
    if state_data.provider != expected_provider.value then .error .providerMismatch
    else .ok state_data

end OAuthService

/-! Concrete fixtures used to evaluate the model on closed inputs. -/

/-- A concrete state token issued at time 1000 with a valid signature. -/
def tokW : OAuthService.StateToken :=
  { payload := { provider := "google", redirect_uri := "https://app/cb" },
    issued_at := 1000,
    sig_valid := true }

/-- A concrete user with a password, for the authentication scenario of
the spec (email a@x.com, password longenough1). -/
def aliceW : User :=
  { id := 1,
    email := "a@x.com",
    username := "alice",
    full_name := none,
    avatar_url := none,
    hashed_password := some (get_password_hash "longenough1"),
    is_active := true,
    is_superuser := false,
    role := UserRole.USER,
    is_oauth_user := false,
    email_verified := false }

/-- A one-user directory holding aliceW. -/
def dbAuthW : DB :=
  { users := [aliceW], oauth_accounts := [], next_user_id := 2, next_oauth_id := 1 }

/-- A concrete admin actor. -/
def adminW : User :=
  { aliceW with id := 10, email := "admin@x.com", username := "root", role := UserRole.ADMIN }

/-- A concrete base-role target user. -/
def targetW : User :=
  { aliceW with id := 2, email := "t@x.com", username := "tara" }

/-- A two-user directory for the role-change scenario. -/
def dbRoleW : DB :=
  { users := [adminW, targetW], oauth_accounts := [], next_user_id := 11, next_oauth_id := 1 }

/-- A concrete passwordless OAuth-origin user. -/
def carolW : User :=
  { aliceW with
    id := 3, email := "c@x.com", username := "carol",
    hashed_password := none, is_oauth_user := true }

/-- carolW's Google link. -/
def gAcctW : UserOAuthAccount :=
  { id := 1,
    user_id := 3,
    provider := OAuthProvider.GOOGLE,
    provider_user_id := "g-sub-3",
    provider_user_email := "c@x.com",
    provider_user_name := none,
    provider_avatar_url := none,
    access_token := none,
    refresh_token := none,
    token_expires_at := none,
    provider_data := none }

/-- carolW's GitHub link. -/
def ghAcctW : UserOAuthAccount :=
  { gAcctW with id := 2, provider := OAuthProvider.GITHUB, provider_user_id := "gh-sub-3" }

/-- carolW with no linked accounts. -/
def dbZeroW : DB :=
  { users := [carolW], oauth_accounts := [], next_user_id := 4, next_oauth_id := 1 }

/-- carolW with exactly one linked account. -/
def dbOneW : DB :=
  { users := [carolW], oauth_accounts := [gAcctW], next_user_id := 4, next_oauth_id := 3 }

/-- carolW with two linked accounts. -/
def dbTwoW : DB :=
  { users := [carolW], oauth_accounts := [gAcctW, ghAcctW], next_user_id := 4, next_oauth_id := 3 }

/-- A user whose username collides with every generated candidate below. -/
def daveW : User :=
  { aliceW with id := 4, email := "d@x.com", username := "dave_feedbeef" }

/-- A directory containing only daveW. -/
def dbCollideW : DB :=
  { users := [daveW], oauth_accounts := [], next_user_id := 5, next_oauth_id := 1 }

/-- A generator whose every draw collides with daveW's username. -/
def envCollideW : Nat → String :=
  fun _ => "dave_feedbeef"

/-- The provider userinfo for the colliding first login. -/
def infoCollideW : OAuthUserInfo :=
  { id := "g-sub-4", email := "dave@x.com", name := some "Dave",
    picture := none, email_verified := true }

/-- The fields of a user row that update_user must never modify: the
claim's frame (id, hashed_password, avatar_url, is_oauth_user,
email_verified). -/
def frame_eq (a b : User) : Prop :=
  a.id = b.id ∧
  a.hashed_password = b.hashed_password ∧
  a.avatar_url = b.avatar_url ∧
  a.is_oauth_user = b.is_oauth_user ∧
  a.email_verified = b.email_verified

/-- A concrete partial-update payload touching name, activity and role. -/
def updW : UserService.UserUpdate :=
  { email := none, username := none, full_name := some "Tara T",
    is_active := some false, role := some UserRole.MANAGER }

/-- A concrete passworded local user whose email the provider returns. -/
def erinW : User :=
  { aliceW with
    id := 5, email := "e@x.com", username := "erin",
    hashed_password := some (get_password_hash "erinpass99") }

/-- A directory containing only erinW and no OAuth accounts. -/
def dbLinkW : DB :=
  { users := [erinW], oauth_accounts := [], next_user_id := 6, next_oauth_id := 1 }

/-- The provider userinfo of the first callback for erinW's email. -/
def infoLink1W : OAuthUserInfo :=
  { id := "g-sub-5", email := "e@x.com", name := some "Erin",
    picture := some "https://pics/e1.png", email_verified := true }

/-- The provider userinfo of the second callback: same subject, changed
profile fields. -/
def infoLink2W : OAuthUserInfo :=
  { infoLink1W with name := some "Erin B", picture := some "https://pics/e2.png" }

/-- Token payload of the first callback. -/
def tokenLink1W : TokenData :=
  { access_token := some "at-1", refresh_token := some "rt-1", expires_in := some 100 }

/-- Token payload of the second callback. -/
def tokenLink2W : TokenData :=
  { access_token := some "at-2", refresh_token := some "rt-2", expires_in := none }

/-- A generator for the callback scenario (never consulted there,
because a matching user exists). -/
def envLinkW : Nat → String :=
  fun n => "erin_" ++ toString n

end SanareApp

namespace SanareApp

/-- C1: Admin manages every role; Manager manages a role exactly when it
is USER (in particular Manager does not manage Manager); User manages no
role. -/
theorem can_manage_user_matrix (target : UserRole) :
    RolePermissions.can_manage_user UserRole.ADMIN target = true ∧
    (RolePermissions.can_manage_user UserRole.MANAGER target = true ↔ target = UserRole.USER) ∧
    RolePermissions.can_manage_user UserRole.USER target = false := by
  cases target <;> decide

/-- C6: every permission of the USER role also belongs to the MANAGER and
ADMIN roles, and every permission of the MANAGER role also belongs to the
ADMIN role. -/
theorem permissions_monotone (p : Permission) :
    (RolePermissions.has_permission UserRole.USER p = true →
      RolePermissions.has_permission UserRole.MANAGER p = true ∧
      RolePermissions.has_permission UserRole.ADMIN p = true) ∧
    (RolePermissions.has_permission UserRole.MANAGER p = true →
      RolePermissions.has_permission UserRole.ADMIN p = true) := by
  cases p <;> decide

/-- Witness for permissions_monotone at concrete permissions. -/
theorem permissions_monotone_witness :
    RolePermissions.has_permission UserRole.MANAGER Permission.READ_OWN_PROFILE = true ∧
    RolePermissions.has_permission UserRole.ADMIN Permission.READ_OWN_PROFILE = true ∧
    RolePermissions.has_permission UserRole.ADMIN Permission.VIEW_ANALYTICS = true :=
  ⟨((permissions_monotone Permission.READ_OWN_PROFILE).1 (by decide)).1,
   ((permissions_monotone Permission.READ_OWN_PROFILE).1 (by decide)).2,
   (permissions_monotone Permission.VIEW_ANALYTICS).2 (by decide)⟩

/-- C7: with a valid signature, state verification fails 601 seconds
after issuance, passes 599 seconds after issuance when the embedded
provider matches, and fails with a provider mismatch when fresh but the
embedded provider differs from the callback provider. -/
theorem verify_state_expiry_and_provider (tok : OAuthService.StateToken) (now : Nat)
    (provider : OAuthProvider) (hsig : tok.sig_valid = true) :
    (now = tok.issued_at + 601 →
      OAuthService.verify_state tok now provider =
        .error OAuthService.StateError.invalidOrExpired) ∧
    (now = tok.issued_at + 599 → tok.payload.provider = provider.value →
      OAuthService.verify_state tok now provider = .ok tok.payload) ∧
    (now - tok.issued_at ≤ 600 → tok.payload.provider ≠ provider.value →
      OAuthService.verify_state tok now provider =
        .error OAuthService.StateError.providerMismatch) := by
  refine ⟨fun h => ?_, fun h hp => ?_, fun h hp => ?_⟩
  · simp [OAuthService.verify_state, OAuthService.serializer_loads, hsig, h]
  · simp [OAuthService.verify_state, OAuthService.serializer_loads, hsig, h, hp]
  · simp [OAuthService.verify_state, OAuthService.serializer_loads, hsig, h, hp]

/-- Witness for verify_state_expiry_and_provider on a concrete token. -/
theorem verify_state_witness :
    OAuthService.verify_state tokW 1601 OAuthProvider.GOOGLE =
      .error OAuthService.StateError.invalidOrExpired ∧
    OAuthService.verify_state tokW 1599 OAuthProvider.GOOGLE = .ok tokW.payload ∧
    OAuthService.verify_state tokW 1599 OAuthProvider.GITHUB =
      .error OAuthService.StateError.providerMismatch :=
  ⟨(verify_state_expiry_and_provider tokW 1601 OAuthProvider.GOOGLE (by decide)).1 (by decide),
   (verify_state_expiry_and_provider tokW 1599 OAuthProvider.GOOGLE (by decide)).2.1
     (by decide) (by decide),
   (verify_state_expiry_and_provider tokW 1599 OAuthProvider.GITHUB (by decide)).2.2
     (by decide) (by decide)⟩

/-- C8: authentication returns none both when no user carries the email
and when the password fails verification against the stored hash (the
same absent value in both cases), and returns the user when the email is
found and the password verifies. -/
theorem authenticate_user_cases (db : DB) (email password : String) :
    (UserService.get_user_by_email db email = none →
      UserService.authenticate_user db email password = none) ∧
    (∀ u, UserService.get_user_by_email db email = some u →
      verify_password password u.hashed_password = false →
      UserService.authenticate_user db email password = none) ∧
    (∀ u, UserService.get_user_by_email db email = some u →
      verify_password password u.hashed_password = true →
      UserService.authenticate_user db email password = some u) := by
  refine ⟨fun h => ?_, fun u h hv => ?_, fun u h hv => ?_⟩
  · simp [UserService.authenticate_user, h]
  · simp [UserService.authenticate_user, h, hv]
  · simp [UserService.authenticate_user, h, hv]

/-- Witness for authenticate_user_cases: the spec's concrete scenario,
a correct password authenticates and a wrong one returns none. -/
theorem authenticate_user_witness :
    UserService.authenticate_user dbAuthW "a@x.com" "longenough1" = some aliceW ∧
    UserService.authenticate_user dbAuthW "a@x.com" "wrong" = none :=
  ⟨(authenticate_user_cases dbAuthW "a@x.com" "longenough1").2.2 aliceW (by rfl) (by decide),
   (authenticate_user_cases dbAuthW "a@x.com" "wrong").2.1 aliceW (by rfl) (by decide)⟩

/-- C5: role-change validation returns the not-found reason when the
target id matches no user; otherwise it denies self-change first, then
denies when the actor cannot manage the target's current role, then
denies when the actor cannot manage the new role, and returns ok when
none of these fail. -/
theorem validate_role_change_cases (db : DB) (changer : User) (tid : Nat)
    (new_role : UserRole) :
    (UserService.get_user_by_id db tid = none →
      UserService.validate_role_change db changer tid new_role =
        (false, "Target user not found")) ∧
    (∀ target, UserService.get_user_by_id db tid = some target →
      ((changer.id = tid →
          UserService.validate_role_change db changer tid new_role =
            (false, "You cannot change your own role")) ∧
       (changer.id ≠ tid →
          RolePermissions.can_manage_user changer.role target.role = false →
          UserService.validate_role_change db changer tid new_role =
            (false, "You cannot manage users with role: " ++ target.role.value)) ∧
       (changer.id ≠ tid →
          RolePermissions.can_manage_user changer.role target.role = true →
          RolePermissions.can_manage_user changer.role new_role = false →
          UserService.validate_role_change db changer tid new_role =
            (false, "You cannot assign role: " ++ new_role.value)) ∧
       (changer.id ≠ tid →
          RolePermissions.can_manage_user changer.role target.role = true →
          RolePermissions.can_manage_user changer.role new_role = true →
          UserService.validate_role_change db changer tid new_role = (true, "")))) := by
  refine ⟨fun h => ?_, fun target h => ⟨fun he => ?_, fun hne hm => ?_,
    fun hne hm hn => ?_, fun hne hm hn => ?_⟩⟩
  · simp [UserService.validate_role_change, h]
  · simp [UserService.validate_role_change, h, he]
  · simp [UserService.validate_role_change, h, hne, hm]
  · simp [UserService.validate_role_change, h, hne, hm, hn]
  · simp [UserService.validate_role_change, h, hne, hm, hn]

/-- Witness for validate_role_change_cases: a concrete admin promoting a
concrete base user succeeds. -/
theorem validate_role_change_witness :
    UserService.validate_role_change dbRoleW adminW 2 UserRole.MANAGER = (true, "") :=
  ((validate_role_change_cases dbRoleW adminW 2 UserRole.MANAGER).2 targetW
    (by rfl)).2.2.2 (by decide) (by decide) (by decide)

/-- Deleting a row by its primary key from a table with pairwise
distinct ids shortens the table by exactly one. -/
theorem filter_ne_id_length (l : List UserOAuthAccount) (a : UserOAuthAccount)
    (hnd : l.Pairwise (fun x y => x.id ≠ y.id)) (ha : a ∈ l) :
    (l.filter (fun x => x.id != a.id)).length + 1 = l.length := by
  induction l with
  | nil => cases ha
  | cons b t ih =>
    have hcons := List.pairwise_cons.mp hnd
    rcases List.mem_cons.mp ha with heq | hat
    · subst heq
      have hkeep : t.filter (fun x => x.id != a.id) = t := by
        apply List.filter_eq_self.mpr
        intro y hy
        simpa using Ne.symm (hcons.1 y hy)
      simp [List.filter_cons, hkeep]
    · have hh : (b.id != a.id) = true := by
        simpa using hcons.1 a hat
      have hrec := ih hcons.2 hat
      simp only [List.filter_cons, hh, if_pos, List.length_cons]
      omega

/-- C2: for a passwordless user, unlinking with exactly one linked
account fails with lastAuthMethod and leaves the state unchanged, while
unlinking one of two linked accounts succeeds and leaves exactly one
account linked to that user. -/
theorem unlink_last_auth_method_guard (db : DB) (uid : Nat) (p : OAuthProvider)
    (u : User) (hu : UserService.get_user_by_id db uid = some u)
    (hnp : u.hashed_password = none)
    (hnd : db.oauth_accounts.Pairwise (fun x y => x.id ≠ y.id)) :
    ((db.oauth_accounts.filter (fun x => x.user_id == uid)).length = 1 →
      OAuthService.unlink_oauth_account db uid p =
        (.error OAuthService.OAuthError.lastAuthMethod, db)) ∧
    (∀ a, (db.oauth_accounts.filter (fun x => x.user_id == uid)).length = 2 →
      db.oauth_accounts.filter (fun x => x.user_id == uid && x.provider == p) = [a] →
      ∃ db2, OAuthService.unlink_oauth_account db uid p = (.ok true, db2) ∧
        (db2.oauth_accounts.filter (fun x => x.user_id == uid)).length = 1) := by
  constructor
  · intro h1
    simp [OAuthService.unlink_oauth_account, hu, User.has_password, hnp, h1]
  · intro a hlen2 hmatch
    have hmemMatch : a ∈ db.oauth_accounts.filter
        (fun x => x.user_id == uid && x.provider == p) := by
      rw [hmatch]; exact List.mem_singleton.mpr rfl
    have hmem0 := (List.mem_filter.mp hmemMatch).1
    have hpred := (List.mem_filter.mp hmemMatch).2
    have hmem : a ∈ db.oauth_accounts.filter (fun x => x.user_id == uid) := by
      refine List.mem_filter.mpr ⟨hmem0, ?_⟩
      exact (Bool.and_eq_true_iff.mp hpred).1
    have hndL : (db.oauth_accounts.filter (fun x => x.user_id == uid)).Pairwise
        (fun x y => x.id ≠ y.id) :=
      List.Pairwise.sublist (List.filter_sublist _) hnd
    have hlen := filter_ne_id_length _ a hndL hmem
    refine ⟨{ db with oauth_accounts := db.oauth_accounts.filter (fun x => x.id != a.id) },
      ?_, ?_⟩
    · simp [OAuthService.unlink_oauth_account, hu, User.has_password, hnp, hlen2, hmatch,
        scalarOneOrNone]
    · show ((db.oauth_accounts.filter (fun x => x.id != a.id)).filter
        (fun x => x.user_id == uid)).length = 1
      rw [List.filter_comm]
      omega

/-- Witness for unlink_last_auth_method_guard on concrete states: one
linked account fails lastAuthMethod, two linked accounts unlink down to
one. -/
theorem unlink_last_auth_method_guard_witness :
    OAuthService.unlink_oauth_account dbOneW 3 OAuthProvider.GOOGLE =
      (.error OAuthService.OAuthError.lastAuthMethod, dbOneW) ∧
    ∃ db2, OAuthService.unlink_oauth_account dbTwoW 3 OAuthProvider.GOOGLE = (.ok true, db2) ∧
      (db2.oauth_accounts.filter (fun x => x.user_id == 3)).length = 1 :=
  ⟨(unlink_last_auth_method_guard dbOneW 3 OAuthProvider.GOOGLE carolW (by rfl) (by rfl)
      (by decide)).1 (by decide),
   (unlink_last_auth_method_guard dbTwoW 3 OAuthProvider.GOOGLE carolW (by rfl) (by rfl)
      (by decide)).2 gAcctW (by decide) (by decide)⟩

/-- C9: the last-auth-method guard is evaluated before the per-provider
link lookup: a passwordless user with at most one linked account gets
lastAuthMethod even when the requested provider has no link to them at
all. -/
theorem unlink_guard_precedes_link_lookup (db : DB) (uid : Nat) (p : OAuthProvider)
    (u : User) (hu : UserService.get_user_by_id db uid = some u)
    (hnp : u.hashed_password = none)
    (hle : (db.oauth_accounts.filter (fun x => x.user_id == uid)).length ≤ 1)
    (_hnolink : db.oauth_accounts.filter (fun x => x.user_id == uid && x.provider == p) = []) :
    OAuthService.unlink_oauth_account db uid p =
      (.error OAuthService.OAuthError.lastAuthMethod, db) := by
  simp [OAuthService.unlink_oauth_account, hu, User.has_password, hnp, hle]

/-- Witness for unlink_guard_precedes_link_lookup: a passwordless user
with no links at all asked to unlink google gets lastAuthMethod, not the
per-provider not-found. -/
theorem unlink_guard_precedes_link_lookup_witness :
    OAuthService.unlink_oauth_account dbZeroW 3 OAuthProvider.GOOGLE =
      (.error OAuthService.OAuthError.lastAuthMethod, dbZeroW) :=
  unlink_guard_precedes_link_lookup dbZeroW 3 OAuthProvider.GOOGLE carolW (by rfl) (by rfl)
    (by decide) (by rfl)

/-- When every candidate the loop can reach collides, the retry loop
runs its full fuel: attempts and generator calls each grow by the fuel. -/
theorem username_loop_all_taken (db : DB) (env : Nat → String) :
    ∀ fuel username attempts calls,
      OAuthService.usernameTaken db username = true →
      (∀ n, n < calls + fuel → OAuthService.usernameTaken db (env n) = true) →
      ∃ un, OAuthService.username_loop db env fuel username attempts calls =
        (un, attempts + fuel, calls + fuel) := by
  intro fuel
  induction fuel with
  | zero =>
    intro username attempts calls _ _
    exact ⟨username, by simp [OAuthService.username_loop]⟩
  | succ f ih =>
    intro username attempts calls htaken henv
    have hnext : OAuthService.usernameTaken db (env calls) = true :=
      henv calls (by omega)
    have henv2 : ∀ n, n < (calls + 1) + f → OAuthService.usernameTaken db (env n) = true :=
      fun n hn => henv n (by omega)
    obtain ⟨un, hloop⟩ := ih (env calls) (attempts + 1) (calls + 1) hnext henv2
    refine ⟨un, ?_⟩
    simp only [OAuthService.username_loop, htaken, if_pos]
    rw [hloop]
    simp only [Prod.mk.injEq]
    exact ⟨trivial, by omega, by omega⟩

/-- C3 (amended): when every generated candidate collides, first-login
user creation fails with the exhaustion error, creates no user row, and
makes exactly 11 generator calls in total (the initial candidate plus 10
retries; no 12th call is made and the loop terminates). -/
theorem create_user_from_oauth_exhausted (env : Nat → String) (db : DB)
    (info : OAuthUserInfo)
    (H : ∀ n, n < 11 → OAuthService.usernameTaken db (env n) = true) :
    OAuthService.create_user_from_oauth env db info =
      (.error OAuthService.OAuthError.usernameExhausted, db, 11) := by
  obtain ⟨un, hloop⟩ :=
    username_loop_all_taken db env 10 (env 0) 0 1 (H 0 (by omega))
      (fun n hn => H n (by omega))
  simp [OAuthService.create_user_from_oauth, hloop]

/-- Witness for create_user_from_oauth_exhausted on the concrete
colliding generator and directory. -/
theorem create_user_from_oauth_exhausted_witness :
    OAuthService.create_user_from_oauth envCollideW dbCollideW infoCollideW =
      (.error OAuthService.OAuthError.usernameExhausted, dbCollideW, 11) :=
  create_user_from_oauth_exhausted envCollideW dbCollideW infoCollideW (by decide)

/-- C3 (counterexample to the claim as stated): with ten consecutive
forced collisions an 11th generation attempt IS still made before the
call fails: on the concrete all-colliding input the generator is
invoked 11 times, refuting "the 11th attempt is never made". -/
theorem create_user_from_oauth_eleventh_attempt_made :
    (OAuthService.create_user_from_oauth envCollideW dbCollideW infoCollideW).2.2 = 11 ∧
    ¬((OAuthService.create_user_from_oauth envCollideW dbCollideW infoCollideW).2.2 ≤ 10) := by
  decide

/-- Every list is frame-related to itself. -/
theorem forall2_frame_refl (l : List User) : List.Forall₂ frame_eq l l := by
  induction l with
  | nil => exact List.Forall₂.nil
  | cons a t ih => exact List.Forall₂.cons ⟨rfl, rfl, rfl, rfl, rfl⟩ ih

/-- Mapping a pointwise frame-preserving function preserves the frame. -/
theorem forall2_frame_map (l : List User) (f : User → User)
    (h : ∀ x ∈ l, frame_eq x (f x)) : List.Forall₂ frame_eq l (l.map f) := by
  induction l with
  | nil => exact List.Forall₂.nil
  | cons a t ih =>
    exact List.Forall₂.cons (h a (List.mem_cons_self a t))
      (ih fun x hx => h x (List.mem_cons_of_mem a hx))

/-- In a table with pairwise distinct ids, any member whose id matches a
successful find?-by-id is that found row. -/
theorem find_by_id_unique (l : List User) (i : Nat) (u : User)
    (hnd : l.Pairwise (fun x y => x.id ≠ y.id))
    (hf : l.find? (fun x => x.id == i) = some u) :
    ∀ x ∈ l, x.id = i → x = u := by
  induction l with
  | nil => simp at hf
  | cons b t ih =>
    have hcons := List.pairwise_cons.mp hnd
    intro x hx hxi
    rcases List.mem_cons.mp hx with heq | hxt
    · subst heq
      have hb : (x.id == i) = true := by simp [hxi]
      have hpos : List.find? (fun y => y.id == i) (x :: t) = some x :=
        List.find?_cons_of_pos t hb
      rw [hpos] at hf
      exact Option.some.inj hf
    · cases hb : (b.id == i) with
      | false =>
        have hneg : List.find? (fun y => y.id == i) (b :: t) =
            List.find? (fun y => y.id == i) t :=
          List.find?_cons_of_neg t (by simp [hb])
        rw [hneg] at hf
        exact ih hcons.2 hf x hxt hxi
      | true =>
        exfalso
        exact hcons.1 x hxt (by simp at hb; omega)

/-- C10: update_user only ever touches the email, username, full_name,
is_active and role columns: on every path (missing id, email conflict,
username conflict, success) each user row keeps its id, hashed_password,
avatar_url, is_oauth_user and email_verified, and the OAuth-accounts
table is untouched. -/
theorem update_user_frame (db : DB) (uid : Nat) (data : UserService.UserUpdate)
    (hnd : db.users.Pairwise (fun x y => x.id ≠ y.id)) :
    List.Forall₂ frame_eq db.users (UserService.update_user db uid data).2.users ∧
    (UserService.update_user db uid data).2.oauth_accounts = db.oauth_accounts := by
  unfold UserService.update_user
  cases hfind : UserService.get_user_by_id db uid with
  | none => exact ⟨forall2_frame_refl _, rfl⟩
  | some user =>
    simp only
    split
    · exact ⟨forall2_frame_refl _, rfl⟩
    · split
      · exact ⟨forall2_frame_refl _, rfl⟩
      · refine ⟨?_, rfl⟩
        apply forall2_frame_map
        intro x hx
        cases hxid : (x.id == uid) with
        | false =>
          refine ⟨?_, ?_, ?_, ?_, ?_⟩ <;> simp [hxid]
        | true =>
          have hxu : x = user :=
            find_by_id_unique db.users uid user hnd hfind x hx (by simpa using hxid)
          subst hxu
          refine ⟨?_, ?_, ?_, ?_, ?_⟩ <;>
            simp [hxid, UserService.apply_user_update]

/-- Witness for update_user_frame: a concrete update of name, activity
and role on a two-user directory leaves the frame intact. -/
theorem update_user_frame_witness :
    List.Forall₂ frame_eq dbRoleW.users (UserService.update_user dbRoleW 2 updW).2.users ∧
    (UserService.update_user dbRoleW 2 updW).2.oauth_accounts = dbRoleW.oauth_accounts :=
  update_user_frame dbRoleW 2 updW (by decide)

/-- A map whose function fixes every member of a list is the identity on
that list. -/
theorem map_eq_self_of_mem {α : Type} (l : List α) (f : α → α)
    (h : ∀ a ∈ l, f a = a) : l.map f = l := by
  induction l with
  | nil => rfl
  | cons b t ih =>
    rw [List.map_cons, h b (List.mem_cons_self b t),
      ih (fun a ha => h a (List.mem_cons_of_mem b ha))]

/-- find?-by-id commutes with mapping an id-preserving function over the
users table. -/
theorem find_id_map (l : List User) (f : User → User)
    (hid : ∀ x, (f x).id = x.id) (i : Nat) :
    (l.map f).find? (fun x => x.id == i) = (l.find? (fun x => x.id == i)).map f := by
  induction l with
  | nil => rfl
  | cons b t ih =>
    cases hb : (b.id == i) with
    | true =>
      have h1 : List.find? (fun x => x.id == i) (f b :: t.map f) = some (f b) :=
        List.find?_cons_of_pos _ (by rw [hid b]; exact hb)
      have h2 : List.find? (fun x => x.id == i) (b :: t) = some b :=
        List.find?_cons_of_pos _ hb
      simp [List.map_cons, h1, h2]
    | false =>
      have h1 : List.find? (fun x => x.id == i) (f b :: t.map f) =
          List.find? (fun x => x.id == i) (t.map f) :=
        List.find?_cons_of_neg _ (by rw [hid b]; simp [hb])
      have h2 : List.find? (fun x => x.id == i) (b :: t) =
          List.find? (fun x => x.id == i) t :=
        List.find?_cons_of_neg _ (by simp [hb])
      simp [List.map_cons, h1, h2, ih]

/-- C4: a callback for an unseen (provider, subject) whose email matches
an existing local user creates one OAuth account bound to that user and
creates no user row; a subsequent callback for the same (provider,
subject) resolves the same user, updates that same account in place and
leaves both table sizes unchanged. -/
theorem oauth_callback_link_then_update (env : Nat → String) (now1 now2 : Nat)
    (db : DB) (provider : OAuthProvider) (u : User)
    (info1 info2 : OAuthUserInfo) (token1 token2 : TokenData)
    (hNoAcct : db.oauth_accounts.filter
      (fun a => a.provider == provider && a.provider_user_id == info1.id) = [])
    (hEmail : UserService.get_user_by_email db info1.email = some u)
    (hById : UserService.get_user_by_id db u.id = some u)
    (hFresh : ∀ a ∈ db.oauth_accounts, a.id ≠ db.next_oauth_id)
    (hSubj : info2.id = info1.id) :
    ∃ user1 db1 acct,
      OAuthService.handle_oauth_callback env now1 db provider info1 token1 =
        .ok (user1, db1) ∧
      user1.id = u.id ∧
      db1.users.length = db.users.length ∧
      db1.oauth_accounts = db.oauth_accounts ++ [acct] ∧
      acct.user_id = u.id ∧
      acct.provider = provider ∧
      acct.provider_user_id = info1.id ∧
      ∃ user2 db2,
        OAuthService.handle_oauth_callback env now2 db1 provider info2 token2 =
          .ok (user2, db2) ∧
        user2.id = u.id ∧
        db2.users.length = db1.users.length ∧
        db2.oauth_accounts.length = db1.oauth_accounts.length ∧
        db2.oauth_accounts.filter
            (fun a => a.provider == provider && a.provider_user_id == info2.id) =
          [OAuthService.update_oauth_account acct now2 info2 token2] ∧
        (OAuthService.update_oauth_account acct now2 info2 token2).id = acct.id := by
  have hg1 : OAuthService.get_oauth_account db provider info1.id = .ok none := by
    unfold OAuthService.get_oauth_account
    rw [hNoAcct]
    rfl
  have hrun1 : OAuthService.handle_oauth_callback env now1 db provider info1 token1 =
      .ok (OAuthService.backfill_user u info1,
        (OAuthService.link_to_existing_user db now1 u provider info1 token1).2) := by
    simp only [OAuthService.handle_oauth_callback, hg1, hEmail]
    rfl
  have husers1 :
      (OAuthService.link_to_existing_user db now1 u provider info1 token1).2.users =
      db.users.map
        (fun x => if x.id == u.id then OAuthService.backfill_user u info1 else x) := rfl
  have hacc1 :
      (OAuthService.link_to_existing_user db now1 u provider info1 token1).2.oauth_accounts =
      db.oauth_accounts ++
        [(OAuthService.create_oauth_account db now1 u.id provider info1 token1).1] := rfl
  have hfid : ∀ x : User,
      (if x.id == u.id then OAuthService.backfill_user u info1 else x).id = x.id := by
    intro x
    cases hx : (x.id == u.id) with
    | true =>
      have hxe : x.id = u.id := by simpa using hx
      simp [hx, OAuthService.backfill_user, hxe]
    | false => simp [hx]
  have hg2 : OAuthService.get_oauth_account
      (OAuthService.link_to_existing_user db now1 u provider info1 token1).2
      provider info2.id =
      .ok (some (OAuthService.create_oauth_account db now1 u.id provider info1 token1).1) := by
    unfold OAuthService.get_oauth_account
    rw [hacc1, List.filter_append, hSubj, hNoAcct]
    simp [OAuthService.create_oauth_account, scalarOneOrNone]
  have huser2 : UserService.get_user_by_id
      (OAuthService.update_existing_link
        (OAuthService.link_to_existing_user db now1 u provider info1 token1).2 now2
        (OAuthService.create_oauth_account db now1 u.id provider info1 token1).1 info2 token2)
      (OAuthService.create_oauth_account db now1 u.id provider info1 token1).1.user_id =
      some (OAuthService.backfill_user u info1) := by
    show List.find? (fun x => x.id == u.id)
      (OAuthService.link_to_existing_user db now1 u provider info1 token1).2.users =
      some (OAuthService.backfill_user u info1)
    rw [husers1, find_id_map _ _ hfid u.id,
      show List.find? (fun x => x.id == u.id) db.users = some u from hById]
    simp
  have hrun2 : OAuthService.handle_oauth_callback env now2
      (OAuthService.link_to_existing_user db now1 u provider info1 token1).2
      provider info2 token2 =
      .ok (OAuthService.backfill_user u info1,
        OAuthService.update_existing_link
          (OAuthService.link_to_existing_user db now1 u provider info1 token1).2 now2
          (OAuthService.create_oauth_account db now1 u.id provider info1 token1).1
          info2 token2) := by
    simp only [OAuthService.handle_oauth_callback, hg2, huser2]
  have hmapfix : db.oauth_accounts.map
      (fun a =>
        if a.id == (OAuthService.create_oauth_account db now1 u.id provider info1
          token1).1.id then
          OAuthService.update_oauth_account
            (OAuthService.create_oauth_account db now1 u.id provider info1 token1).1
            now2 info2 token2
        else a) = db.oauth_accounts := by
    apply map_eq_self_of_mem
    intro a ha
    have hne := hFresh a ha
    simp [OAuthService.create_oauth_account, hne]
  have hfilter2 : (OAuthService.update_existing_link
      (OAuthService.link_to_existing_user db now1 u provider info1 token1).2 now2
      (OAuthService.create_oauth_account db now1 u.id provider info1 token1).1
      info2 token2).oauth_accounts.filter
        (fun a => a.provider == provider && a.provider_user_id == info2.id) =
      [OAuthService.update_oauth_account
        (OAuthService.create_oauth_account db now1 u.id provider info1 token1).1
        now2 info2 token2] := by
    unfold OAuthService.update_existing_link
    simp only
    rw [hacc1, List.map_append, hmapfix]
    rw [show ([(OAuthService.create_oauth_account db now1 u.id provider info1 token1).1].map
      (fun a =>
        if a.id == (OAuthService.create_oauth_account db now1 u.id provider info1
          token1).1.id then
          OAuthService.update_oauth_account
            (OAuthService.create_oauth_account db now1 u.id provider info1 token1).1
            now2 info2 token2
        else a)) =
      [OAuthService.update_oauth_account
        (OAuthService.create_oauth_account db now1 u.id provider info1 token1).1
        now2 info2 token2] from by simp]
    rw [List.filter_append, hSubj, hNoAcct]
    simp [OAuthService.update_oauth_account, OAuthService.create_oauth_account]
  refine ⟨OAuthService.backfill_user u info1,
    (OAuthService.link_to_existing_user db now1 u provider info1 token1).2,
    (OAuthService.create_oauth_account db now1 u.id provider info1 token1).1,
    hrun1, rfl, ?_, hacc1, rfl, rfl, rfl,
    OAuthService.backfill_user u info1,
    OAuthService.update_existing_link
      (OAuthService.link_to_existing_user db now1 u provider info1 token1).2 now2
      (OAuthService.create_oauth_account db now1 u.id provider info1 token1).1
      info2 token2,
    hrun2, rfl, rfl, ?_, hfilter2, rfl⟩
  · rw [husers1, List.length_map]
  · simp [OAuthService.update_existing_link]

/-- Witness for oauth_callback_link_then_update: the concrete
two-callback scenario over a directory holding only erinW. -/
theorem oauth_callback_link_then_update_witness :
    ∃ user1 db1 acct,
      OAuthService.handle_oauth_callback envLinkW 50 dbLinkW OAuthProvider.GOOGLE
        infoLink1W tokenLink1W = .ok (user1, db1) ∧
      user1.id = erinW.id ∧
      db1.users.length = dbLinkW.users.length ∧
      db1.oauth_accounts = dbLinkW.oauth_accounts ++ [acct] ∧
      acct.user_id = erinW.id ∧
      acct.provider = OAuthProvider.GOOGLE ∧
      acct.provider_user_id = infoLink1W.id ∧
      ∃ user2 db2,
        OAuthService.handle_oauth_callback envLinkW 60 db1 OAuthProvider.GOOGLE
          infoLink2W tokenLink2W = .ok (user2, db2) ∧
        user2.id = erinW.id ∧
        db2.users.length = db1.users.length ∧
        db2.oauth_accounts.length = db1.oauth_accounts.length ∧
        db2.oauth_accounts.filter
            (fun a => a.provider == OAuthProvider.GOOGLE &&
              a.provider_user_id == infoLink2W.id) =
          [OAuthService.update_oauth_account acct 60 infoLink2W tokenLink2W] ∧
        (OAuthService.update_oauth_account acct 60 infoLink2W tokenLink2W).id = acct.id :=
  oauth_callback_link_then_update envLinkW 50 60 dbLinkW OAuthProvider.GOOGLE erinW
    infoLink1W infoLink2W tokenLink1W tokenLink2W (by rfl) (by rfl) (by rfl)
    (by simp [dbLinkW]) (by rfl)

end SanareApp
